import Mathlib

/-!
Verification of the reapergt-app adaptive polling engine and
transition/fanout pipeline, shallowly embedded from
`src/backend/scraper/scraper.py` and `src/backend/notifier/notifier.py`.

DynamoDB items are modelled as Lean structures whose fields carry the
defaults the Python code supplies via `.get(key, default)`; the two tables
(`reaper-crns`, `reaper-users`) are modelled as the values the code reads
and writes.  A function that ends in an early `return` without a
`put_item` is modelled as returning the store unchanged (`none` for "no
write" on the record-valued functions).
-/

namespace Reaper

/-- Scheduler constant `BASE_INTERVAL` (scraper.py line 28). -/
def BASE_INTERVAL : Nat := 15

/-- Scheduler constant `FAST_INTERVAL` (scraper.py line 29). -/
def FAST_INTERVAL : Nat := 5

/-- Scheduler constant `SLOW_INTERVAL` (scraper.py line 30). -/
def SLOW_INTERVAL : Nat := 20

/-- Scheduler constant `OPEN_COURSE_INTERVAL` (scraper.py line 31). -/
def OPEN_COURSE_INTERVAL : Nat := 30

/-- Scheduler constant `RECENTLY_CHANGED_THRESHOLD` (scraper.py line 32). -/
def RECENTLY_CHANGED_THRESHOLD : Nat := 5

/-- A stored CRN record, as read from and written to the `reaper-crns`
table.  Fields the Python code reads with a default (`users`, `isOpen`,
`consecutive_closed_checks`) are total here, carrying that default when the
attribute is absent in the store. -/
structure CrnRecord where
  crn : String
  course_name : String
  course_id : String
  course_section : String
  isOpen : Bool
  seats_remaining : Nat
  total_seats : Nat
  users : List String
  last_updated : Option String
  last_status_change : Option String
  consecutive_closed_checks : Nat
  deriving Repr, DecidableEq

/-- The availability dict built by `parse_course_data` (scraper.py
lines 382-391). -/
structure Availability where
  crn : String
  course_name : String
  course_id : String
  course_section : String
  is_open : Bool
  seats_remaining : Nat
  total_seats : Nat
  last_checked : String
  deriving Repr, DecidableEq

/-- The per-CRN metadata dict built by `get_crns_to_check_with_metadata`
(scraper.py lines 154-162), restricted to the fields
`calculate_next_interval` reads. -/
structure CrnMeta where
  isOpen : Bool
  users_count : Nat
  consecutive_closed_checks : Nat
  deriving Repr, DecidableEq

/-- A stored user record from the `reaper-users` table, restricted to the
fields the notifier reads: `phone_number` (absent modelled as `none`,
the Python truthiness test also rejects `""`), the tracked CRN list
`crns` and the dedup list `notified_crns` (both default to `[]`). -/
structure User where
  user_id : String
  phone_number : Option String
  crns : List String
  notified_crns : List String
  deriving Repr, DecidableEq

/-- `is_recently_changed = consecutive_closed <= RECENTLY_CHANGED_THRESHOLD`
(scraper.py line 197). -/
def isRecentlyChanged (m : CrnMeta) : Bool :=
  m.consecutive_closed_checks ≤ RECENTLY_CHANGED_THRESHOLD

/-- Branch `is_open && is_recently_changed` → `recently_opened += 1`
(scraper.py lines 199-201). -/
def recentlyOpenedP (m : CrnMeta) : Bool :=
  m.isOpen && isRecentlyChanged m

/-- Branch `is_open && !is_recently_changed` → `stable_open += 1`
(scraper.py lines 199-203). -/
def stableOpenP (m : CrnMeta) : Bool :=
  m.isOpen && !isRecentlyChanged m

/-- Branch `!is_open && users_count >= 3` → `high_demand_closed += 1`
(scraper.py lines 204-205). -/
def highDemandClosedP (m : CrnMeta) : Bool :=
  !m.isOpen && 3 ≤ m.users_count

/-- Branch `!is_open && users_count < 3 && consecutive_closed >= 15` →
`consistently_closed += 1` (scraper.py lines 204-207). -/
def consistentlyClosedP (m : CrnMeta) : Bool :=
  !m.isOpen && !(3 ≤ m.users_count) && 15 ≤ m.consecutive_closed_checks

/-- Branch `!is_open && users_count < 3 && consecutive_closed < 15 &&
is_recently_changed` → `recently_changed += 1` (scraper.py
lines 204-210). -/
def recentlyChangedP (m : CrnMeta) : Bool :=
  !m.isOpen && !(3 ≤ m.users_count) && !(15 ≤ m.consecutive_closed_checks)
    && isRecentlyChanged m

/-- `calculate_next_interval` (scraper.py lines 171-233).  The per-item
loop increments exactly one counter per metadata record, depending only on
that record's fields, so each counter is a `countP` over the collection;
the final interval is the prioritized if/elif chain on the counters. -/
def calculate_next_interval (ms : List CrnMeta) : Nat :=
  if ms.isEmpty then BASE_INTERVAL
  else
    let recently_opened := ms.countP (fun m => recentlyOpenedP m)
    let stable_open := ms.countP (fun m => stableOpenP m)
    let high_demand_closed := ms.countP (fun m => highDemandClosedP m)
    let consistently_closed := ms.countP (fun m => consistentlyClosedP m)
    let recently_changed := ms.countP (fun m => recentlyChangedP m)
    if 0 < recently_opened ∨ 0 < recently_changed then FAST_INTERVAL
    else if 0 < stable_open then OPEN_COURSE_INTERVAL
    else if consistently_closed < high_demand_closed then BASE_INTERVAL
    else SLOW_INTERVAL

/-- `'open' if is_open else 'closed'`, the status-string encoding used by
`get_crns_to_check_with_metadata` (scraper.py line 151) and diffed by
`update_crn_data_with_metadata`. -/
def statusOf (is_open : Bool) : String :=
  if is_open then "open" else "closed"

/-- `update_crn_data_with_metadata` (scraper.py lines 435-491).  Input
`existing` is the fresh `get_item` read of the CRN record; `none` models
the `'Item' not in response` early return (no write), and the result is
the record passed to `put_item` (or `none` for no write). -/
def update_crn_data_with_metadata (crn : String) (availability : Availability)
    (old_status : String) (existing : Option CrnRecord) : Option CrnRecord :=
  match existing with
  | none => none
  | some existing_crn =>
    let new_is_open := availability.is_open
    let new_status := statusOf new_is_open
    let status_changed := old_status ≠ new_status
    let last_status_change :=
      if status_changed then some availability.last_checked
      else existing_crn.last_status_change
    let consecutive_closed :=
      if new_status = "closed" then existing_crn.consecutive_closed_checks + 1
      else 0
    some
      { crn := crn
        course_name := availability.course_name
        course_id := availability.course_id
        course_section := availability.course_section
        isOpen := new_is_open
        seats_remaining := availability.seats_remaining
        total_seats := availability.total_seats
        users := existing_crn.users
        last_updated := some availability.last_checked
        last_status_change := last_status_change
        consecutive_closed_checks := consecutive_closed }

/-- `update_crn_metadata` (scraper.py lines 493-523), the fetch-failure
write path: re-read the record, increment only
`consecutive_closed_checks`, write the record back; `none` models the
missing-record early return (no write). -/
def update_crn_metadata (crn : String) (existing : Option CrnRecord) :
    Option CrnRecord :=
  match existing with
  | none => none
  | some existing_crn =>
    some { existing_crn with
            consecutive_closed_checks :=
              existing_crn.consecutive_closed_checks + 1 }

/-- The `reaper-users` table, keyed by `user_id` (`get_item` on the key
returns the item or nothing). -/
def UsersTable : Type := String → Option User

/-- Python truthiness of the `phone_number` attribute: `None` (absent) and
the empty string are falsy (notifier.py line 87 `if phone_number and ...`). -/
def phoneTruthy : Option String → Bool
  | none => false
  | some p => !p.isEmpty

/-- An entry of the `users_with_phone` list built by
`get_users_tracking_crn` (notifier.py lines 88-91). -/
structure NotifyTarget where
  user_id : String
  phone_number : String
  deriving Repr, DecidableEq

/-- `get_users_tracking_crn` (notifier.py lines 63-100): read the CRN
record (absent ⇒ `[]`), then for each tracked `user_id` load the user and
keep it iff the user exists, `phone_number` is truthy and
`crn ∈ user.crns`.  Note: `notified_crns` is never consulted here. -/
def get_users_tracking_crn (crn : String) (crnRec : Option CrnRecord)
    (users : UsersTable) : List NotifyTarget :=
  match crnRec with
  | none => []
  | some item =>
    item.users.filterMap (fun user_id =>
      match users user_id with
      | none => none
      | some u =>
        if phoneTruthy u.phone_number && u.crns.contains crn then
          some ⟨user_id, u.phone_number.getD ""⟩
        else none)

/-- Outcome of one Textbelt `requests.post` for one user:
`success` = `result.get('success')` truthy, `failure` = gateway replied
non-success, `exception` = the request (or JSON decode) raised. -/
inductive SmsOutcome where
  | success
  | failure
  | exception
  deriving Repr, DecidableEq

/-- `mark_user_notified` (notifier.py lines 172-191): re-read the user,
append `crn` to `notified_crns` if absent and write the user back; if
already present, no write.  A missing user leaves the table unchanged
(the `put_item` of an item lacking the key raises and is caught). -/
def mark_user_notified (user_id crn : String) (users : UsersTable) :
    UsersTable :=
  match users user_id with
  | none => users
  | some u =>
    if u.notified_crns.contains crn then users
    else fun uid =>
      if uid = user_id then
        some { u with notified_crns := u.notified_crns ++ [crn] }
      else users uid

/-- The counters and send log of `send_sms_notifications`'s per-user loop
(notifier.py lines 118-164); `sent_to` records the users for which the
gateway accepted the SMS. -/
structure SendStats where
  successful_sends : Nat
  failed_sends : Nat
  sent_to : List String
  deriving Repr, DecidableEq

/-- One iteration of the per-user loop of `send_sms_notifications`
(notifier.py lines 121-164): missing API key ⇒ count a failure and skip;
gateway success ⇒ count it, log the recipient and `mark_user_notified`;
gateway failure or exception ⇒ count a failure, touch nothing. -/
def send_step (crn : String) (api_key : Option String)
    (outcome : String → SmsOutcome) (acc : SendStats × UsersTable)
    (t : NotifyTarget) : SendStats × UsersTable :=
  let stats := acc.1
  let users := acc.2
  match api_key with
  | none => ({ stats with failed_sends := stats.failed_sends + 1 }, users)
  | some _ =>
    match outcome t.user_id with
    | SmsOutcome.success =>
        ({ stats with
            successful_sends := stats.successful_sends + 1
            sent_to := stats.sent_to ++ [t.user_id] },
         mark_user_notified t.user_id crn users)
    | SmsOutcome.failure =>
        ({ stats with failed_sends := stats.failed_sends + 1 }, users)
    | SmsOutcome.exception =>
        ({ stats with failed_sends := stats.failed_sends + 1 }, users)

/-- `send_sms_notifications` (notifier.py lines 102-170): build the target
list once with `get_users_tracking_crn`, then run the per-user send loop
over it, threading the users table through the `mark_user_notified`
writes. -/
def send_sms_notifications (crn : String) (crnRec : Option CrnRecord)
    (users : UsersTable) (api_key : Option String)
    (outcome : String → SmsOutcome) : SendStats × UsersTable :=
  (get_users_tracking_crn crn crnRec users).foldl
    (send_step crn api_key outcome) (⟨0, 0, []⟩, users)

/-- A registrar detail page, abstracted to the results of the two regex
probes `parse_course_data` performs on the HTML (scraper.py lines 38-40):
`identity_match` is the captured inner text of the first
`<th class="ddlabel">…</th>` (`_NAME_RE`, `none` when the row is absent),
and `seats_match` is the three captured integers Capacity/Actual/Remaining
of the seats row (`_SEATS_ROW_RE`, `none` when that row does not parse). -/
structure Page where
  identity_match : Option String
  seats_match : Option (Nat × Nat × Nat)
  deriving Repr, DecidableEq

/-- `part.strip().replace('<br />', '').replace('<br>', '')` applied to
each piece of the identity text (scraper.py line 353). -/
def stripPart (part : String) : String :=
  ((part.trim).replace "<br />" "").replace "<br>" ""

/-- `parse_course_data` (scraper.py lines 334-395): no identity row ⇒
`None`; otherwise split the identity text on `" - "` (4+ parts give
name/id/section, fewer fall back to the raw text and `'N/A'`), read the
seats row if present (absent ⇒ seats stay 0/0), and set
`is_open = seats_remaining > 0`.  `now` stands for
`datetime.utcnow().isoformat()`. -/
def parse_course_data (page : Page) (crn : String) (now : String) :
    Option Availability :=
  match page.identity_match with
  | none => none
  | some ident =>
    let name_parts := (ident.splitOn " - ").map stripPart
    let course_name :=
      if 4 ≤ name_parts.length then name_parts.getD 0 "" else ident
    let course_id :=
      if 4 ≤ name_parts.length then name_parts.getD 2 "" else "N/A"
    let course_section :=
      if 4 ≤ name_parts.length then name_parts.getD 3 "" else "N/A"
    let total_seats :=
      match page.seats_match with
      | some cells => cells.1
      | none => 0
    let seats_remaining :=
      match page.seats_match with
      | some cells => cells.2.2
      | none => 0
    some
      { crn := crn
        course_name := course_name
        course_id := course_id
        course_section := course_section
        is_open := decide (0 < seats_remaining)
        seats_remaining := seats_remaining
        total_seats := total_seats
        last_checked := now }

/-- Processing of one gathered fetch result inside
`process_crns_with_metadata` (scraper.py lines 282-303), composed with the
notifier fanout that `send_notification` triggers on a just-opened course.
`availability_data = none` models `check_course_open` returning `None`
(HTTP status ≠ 200, transport error) or `parse_course_data` returning
`None` (missing identity row): that path only runs `update_crn_metadata`
and dispatches nothing.  On an observation, the CRN record is written via
`update_crn_data_with_metadata`, and only when
`is_open && old_status == 'closed'` does the notifier run, reading the
just-written record. -/
def scraper_step (crn : String) (availability_data : Option Availability)
    (old_status : String) (existing : Option CrnRecord) (users : UsersTable)
    (api_key : Option String) (outcome : String → SmsOutcome) :
    Option CrnRecord × UsersTable :=
  match availability_data with
  | none => (update_crn_metadata crn existing, users)
  | some availability =>
    let newRec := update_crn_data_with_metadata crn availability old_status existing
    if availability.is_open && (old_status = "closed") then
      (newRec, (send_sms_notifications crn newRec users api_key outcome).2)
    else
      (newRec, users)

/-- An observation of an open course (Remaining = 1 of 30 seats). -/
def avOpenEx : Availability :=
  ⟨"12345", "Intro To Topology", "MATH 4431", "A", true, 1, 30,
    "2025-01-01T00:00:00"⟩

/-- An observation of a closed course (Remaining = 0 of 30 seats). -/
def avClosedEx : Availability :=
  ⟨"12345", "Intro To Topology", "MATH 4431", "A", false, 0, 30,
    "2025-01-02T00:00:00"⟩

/-- A stored record of a closed course with 7 consecutive closed checks,
tracked by user `u1`. -/
def prevClosedEx : CrnRecord :=
  ⟨"12345", "Intro To Topology", "MATH 4431", "A", false, 0, 30, ["u1"],
    some "2024-12-31T00:00:00", none, 7⟩

/-- A stored record of an open course whose `consecutive_closed_checks` is
3 — reachable because the fetch-failure path increments the counter
without touching `isOpen`. -/
def prevOpenCc3Ex : CrnRecord :=
  ⟨"12345", "Intro To Topology", "MATH 4431", "A", true, 1, 30, ["u1"],
    some "2024-12-31T00:00:00", none, 3⟩

/-- Metadata of a closed course that changed recently
(`consecutive_closed_checks = 2`) but has 3 tracking users. -/
def highDemandMetaEx : CrnMeta := ⟨false, 3, 2⟩

/-! ## Claim C3 — interval selection -/

/-- C3, as stated, is false: a record with
`consecutive_closed_checks = 2 ≤ RECENTLY_CHANGED_THRESHOLD` that is
closed with 3 tracking users is counted as high-demand, and the selector
returns `BASE_INTERVAL` (15 s), not `FAST_INTERVAL` (5 s). -/
theorem interval_recent_change_cex :
    highDemandMetaEx ∈ [highDemandMetaEx] ∧
    highDemandMetaEx.consecutive_closed_checks ≤ RECENTLY_CHANGED_THRESHOLD ∧
    calculate_next_interval [highDemandMetaEx] = BASE_INTERVAL ∧
    calculate_next_interval [highDemandMetaEx] ≠ FAST_INTERVAL := by decide

/-- C3 (amended): for a non-empty post-tick collection, if some record has
`consecutive_closed_checks ≤ RECENTLY_CHANGED_THRESHOLD` and is moreover
open or has fewer than 3 tracking users, the selector returns
`FAST_INTERVAL` (5 s). -/
theorem interval_recent_change_fast (ms : List CrnMeta) (m : CrnMeta)
    (hm : m ∈ ms)
    (hcc : m.consecutive_closed_checks ≤ RECENTLY_CHANGED_THRESHOLD)
    (hside : m.isOpen = true ∨ m.users_count < 3) :
    calculate_next_interval ms = FAST_INTERVAL := by
  have hne : ms.isEmpty = false := by
    cases ms with
    | nil => cases hm
    | cons a l => rfl
  have hfast : 0 < ms.countP (fun m => recentlyOpenedP m) ∨
      0 < ms.countP (fun m => recentlyChangedP m) := by
    cases hopen : m.isOpen with
    | true =>
      left
      refine List.countP_pos_iff.mpr ⟨m, hm, ?_⟩
      simp [recentlyOpenedP, isRecentlyChanged, hopen, hcc]
    | false =>
      have husers : m.users_count < 3 := by
        rcases hside with h1 | h2
        · rw [hopen] at h1; cases h1
        · exact h2
      right
      refine List.countP_pos_iff.mpr ⟨m, hm, ?_⟩
      have hcc15 : ¬ 15 ≤ m.consecutive_closed_checks := by
        have h5 : m.consecutive_closed_checks ≤ 5 := hcc
        omega
      simp [recentlyChangedP, isRecentlyChanged, hopen, hcc, husers, hcc15]
  simp only [calculate_next_interval, hne, Bool.false_eq_true, if_false]
  rw [if_pos hfast]

/-- Witness for `interval_recent_change_fast` at a one-record collection:
closed, one tracking user, `consecutive_closed_checks = 2`. -/
theorem interval_recent_change_fast_witness :
    ((⟨false, 1, 2⟩ : CrnMeta) ∈ [(⟨false, 1, 2⟩ : CrnMeta)] ∧
     (⟨false, 1, 2⟩ : CrnMeta).consecutive_closed_checks ≤
       RECENTLY_CHANGED_THRESHOLD ∧
     ((⟨false, 1, 2⟩ : CrnMeta).isOpen = true ∨
       (⟨false, 1, 2⟩ : CrnMeta).users_count < 3)) ∧
    calculate_next_interval [⟨false, 1, 2⟩] = FAST_INTERVAL :=
  ⟨⟨by decide, by decide, by decide⟩,
    interval_recent_change_fast [⟨false, 1, 2⟩] ⟨false, 1, 2⟩ (by decide)
      (by decide) (by decide)⟩

/-! ## Claim C4 — fetch failure is frame-preserving -/

/-- C4: on a fetch failure (`check_course_open` returned `None`: HTTP
status ≠ 200 or transport error, or `parse_course_data` returned `None`:
missing identity row), the persisted record is the stored record with
`consecutive_closed_checks` incremented by exactly 1 and every other field
unchanged, and the users table (hence every `notified_crns`) is untouched:
no SMS is dispatched for that CRN in that tick. -/
theorem fetch_failure_frame (crn old_status : String) (e : CrnRecord)
    (users : UsersTable) (api_key : Option String)
    (outcome : String → SmsOutcome) :
    scraper_step crn none old_status (some e) users api_key outcome =
      (some { e with consecutive_closed_checks :=
                e.consecutive_closed_checks + 1 }, users) := rfl

/-! ## Claim C5 — OPENED transition -/

/-- C5: on an OPENED transition (stored record closed, observation open),
the persisted record has `consecutive_closed_checks = 0`,
`last_status_change` stamped with the observation time, and the
tracking-users list preserved from the stored record. -/
theorem opened_transition_fields (crn : String) (availability : Availability)
    (prev : CrnRecord) (hprev : prev.isOpen = false)
    (hobs : availability.is_open = true) :
    (update_crn_data_with_metadata crn availability (statusOf prev.isOpen)
        (some prev)).map
      (fun r => (r.consecutive_closed_checks, r.last_status_change, r.users))
      = some (0, some availability.last_checked, prev.users) := by
  simp [update_crn_data_with_metadata, statusOf, hprev, hobs]

/-- Witness for `opened_transition_fields`: the closed stored record with
7 consecutive closed checks opening with 1 seat remaining. -/
theorem opened_transition_fields_witness :
    (prevClosedEx.isOpen = false ∧ avOpenEx.is_open = true) ∧
    (update_crn_data_with_metadata "12345" avOpenEx
        (statusOf prevClosedEx.isOpen) (some prevClosedEx)).map
      (fun r => (r.consecutive_closed_checks, r.last_status_change, r.users))
      = some (0, some "2025-01-01T00:00:00", ["u1"]) :=
  ⟨⟨rfl, rfl⟩, opened_transition_fields "12345" avOpenEx prevClosedEx rfl rfl⟩

/-! ## Claim C6 — CLOSED transition counter -/

/-- C6, as stated, is false: a CLOSED transition from a stored record with
`consecutive_closed_checks = 3` (reachable via the fetch-failure path,
which increments the counter without touching `isOpen`) persists
`consecutive_closed_checks = 4`, not 1. -/
theorem closed_transition_cex :
    prevOpenCc3Ex.isOpen = true ∧ avClosedEx.is_open = false ∧
    (update_crn_data_with_metadata "12345" avClosedEx
        (statusOf prevOpenCc3Ex.isOpen) (some prevOpenCc3Ex)).map
      (fun r => r.consecutive_closed_checks) ≠ some 1 := by decide

/-- C6 (amended): on a CLOSED transition the persisted record has
`consecutive_closed_checks` equal to the stored value plus 1 (equal to 1
exactly when the stored value was 0) and `last_status_change` stamped with
the observation time. -/
theorem closed_transition_fields (crn : String) (availability : Availability)
    (prev : CrnRecord) (hprev : prev.isOpen = true)
    (hobs : availability.is_open = false) :
    (update_crn_data_with_metadata crn availability (statusOf prev.isOpen)
        (some prev)).map
      (fun r => (r.consecutive_closed_checks, r.last_status_change))
      = some (prev.consecutive_closed_checks + 1,
              some availability.last_checked) := by
  simp [update_crn_data_with_metadata, statusOf, hprev, hobs]

/-- Witness for `closed_transition_fields`: closing from
`consecutive_closed_checks = 3` persists 4. -/
theorem closed_transition_fields_witness :
    (prevOpenCc3Ex.isOpen = true ∧ avClosedEx.is_open = false) ∧
    (update_crn_data_with_metadata "12345" avClosedEx
        (statusOf prevOpenCc3Ex.isOpen) (some prevOpenCc3Ex)).map
      (fun r => (r.consecutive_closed_checks, r.last_status_change))
      = some (4, some "2025-01-02T00:00:00") :=
  ⟨⟨rfl, rfl⟩,
    closed_transition_fields "12345" avClosedEx prevOpenCc3Ex rfl rfl⟩

/-! ## Claim C10 — absent record is never re-created -/

/-- C10: if the CRN record is absent at write-back time, both the
observation path (`update_crn_data_with_metadata`) and the fetch-failure
path (`update_crn_metadata`) perform no write: the poller never creates or
re-creates a CRN record. -/
theorem absent_record_no_write (crn : String) (availability : Availability)
    (old_status : String) :
    update_crn_data_with_metadata crn availability old_status none = none ∧
    update_crn_metadata crn none = none :=
  ⟨rfl, rfl⟩

/-! ## Claim C7 — missing seats row parses as closed -/

/-- C7: when the identity row parses but the seats row is absent, the
parser still yields an observation, and that observation has
`is_open = false`, `seats_remaining = 0` and `total_seats = 0`: an
unparseable seats row is never treated as open. -/
theorem missing_seats_closed (page : Page) (crn now ident : String)
    (hid : page.identity_match = some ident)
    (hseats : page.seats_match = none) :
    (parse_course_data page crn now).isSome = true ∧
    (parse_course_data page crn now).all
      (fun availability => !availability.is_open
        && availability.seats_remaining == 0
        && availability.total_seats == 0) = true := by
  simp [parse_course_data, hid, hseats]

/-- A page whose identity row parsed but whose seats row did not. -/
def pageMissingSeatsEx : Page :=
  ⟨some "Intro To Topology - 54321 - MATH 4431 - A", none⟩

/-- Witness for `missing_seats_closed` at `pageMissingSeatsEx`. -/
theorem missing_seats_closed_witness :
    (pageMissingSeatsEx.identity_match =
        some "Intro To Topology - 54321 - MATH 4431 - A" ∧
      pageMissingSeatsEx.seats_match = none) ∧
    ((parse_course_data pageMissingSeatsEx "54321" "2025-01-01T00:00:00").isSome
        = true ∧
      (parse_course_data pageMissingSeatsEx "54321" "2025-01-01T00:00:00").all
        (fun availability => !availability.is_open
          && availability.seats_remaining == 0
          && availability.total_seats == 0) = true) :=
  ⟨⟨rfl, rfl⟩,
    missing_seats_closed pageMissingSeatsEx "54321" "2025-01-01T00:00:00"
      "Intro To Topology - 54321 - MATH 4431 - A" rfl rfl⟩

/-! ## Claim C8 — gateway result gates the dedup write -/

/-- C8: in one iteration of the notifier's send loop for target `t`
(stored user `u`), the users table is rewritten through
`mark_user_notified` exactly when the gateway reports success — the CRN is
then appended to `u.notified_crns` (if absent) and the user persisted; on
gateway failure or an exception the stored user is left untouched. -/
theorem gateway_gates_notified (crn key : String)
    (outcome : String → SmsOutcome) (stats : SendStats) (users : UsersTable)
    (t : NotifyTarget) (u : User) (hu : users t.user_id = some u) :
    (send_step crn (some key) outcome (stats, users) t).2 =
      (if outcome t.user_id = SmsOutcome.success then
        mark_user_notified t.user_id crn users
      else users) ∧
    (send_step crn (some key) outcome (stats, users) t).2 t.user_id =
      some (if outcome t.user_id = SmsOutcome.success then
              (if u.notified_crns.contains crn then u
               else { u with notified_crns := u.notified_crns ++ [crn] })
            else u) := by
  cases houtcome : outcome t.user_id with
  | success =>
    refine ⟨by simp [send_step, houtcome], ?_⟩
    simp only [send_step, houtcome, mark_user_notified, hu]
    cases hc : u.notified_crns.contains crn with
    | true => simp [hc, hu]
    | false => simp [hc]
  | failure => exact ⟨by simp [send_step, houtcome], by simp [send_step, houtcome, hu]⟩
  | exception => exact ⟨by simp [send_step, houtcome], by simp [send_step, houtcome, hu]⟩

/-- A user tracking CRN 12345 with a phone number and an empty dedup
list. -/
def u1Ex : User := ⟨"u1", some "+14045550101", ["12345"], []⟩

/-- A users table holding only `u1Ex`. -/
def usersTableEx : UsersTable :=
  fun uid => if uid = "u1" then some u1Ex else none

/-- Witness for `gateway_gates_notified`: a successful send to `u1`
appends `12345` to its `notified_crns`. -/
theorem gateway_gates_notified_witness :
    usersTableEx "u1" = some u1Ex ∧
    ((send_step "12345" (some "key") (fun _ => SmsOutcome.success)
        (⟨0, 0, []⟩, usersTableEx) ⟨"u1", "+14045550101"⟩).2 =
      (if (fun _ => SmsOutcome.success) "u1" = SmsOutcome.success then
        mark_user_notified "u1" "12345" usersTableEx
      else usersTableEx) ∧
    (send_step "12345" (some "key") (fun _ => SmsOutcome.success)
        (⟨0, 0, []⟩, usersTableEx) ⟨"u1", "+14045550101"⟩).2 "u1" =
      some (if (fun _ => SmsOutcome.success) "u1" = SmsOutcome.success then
              (if u1Ex.notified_crns.contains "12345" then u1Ex
               else { u1Ex with
                        notified_crns := u1Ex.notified_crns ++ ["12345"] })
            else u1Ex)) :=
  ⟨rfl,
    gateway_gates_notified "12345" "key" (fun _ => SmsOutcome.success)
      ⟨0, 0, []⟩ usersTableEx ⟨"u1", "+14045550101"⟩ u1Ex rfl⟩

/-! ## Claim C9 — only tracking users with a phone receive SMS -/

/-- Every target emitted by `get_users_tracking_crn` corresponds to a
stored user whose `phone_number` is truthy and whose tracked list `crns`
contains the CRN: ineligible users are filtered out. -/
theorem get_users_tracking_crn_sound (crn : String)
    (crnRec : Option CrnRecord) (users : UsersTable) (t : NotifyTarget)
    (ht : t ∈ get_users_tracking_crn crn crnRec users) :
    (users t.user_id).any
      (fun u => phoneTruthy u.phone_number && u.crns.contains crn) = true := by
  match crnRec with
  | none => cases ht
  | some item =>
    simp only [get_users_tracking_crn, List.mem_filterMap] at ht
    obtain ⟨uid, hmem, hf⟩ := ht
    cases hu : users uid with
    | none => rw [hu] at hf; cases hf
    | some u =>
      rw [hu] at hf
      have hf' : (if phoneTruthy u.phone_number && u.crns.contains crn then
          some (⟨uid, u.phone_number.getD ""⟩ : NotifyTarget) else none)
          = some t := hf
      cases hcond : phoneTruthy u.phone_number && u.crns.contains crn with
      | false =>
        rw [if_neg (by rw [hcond]; simp)] at hf'
        cases hf'
      | true =>
        rw [if_pos hcond] at hf'
        cases hf'
        show (users uid).any _ = true
        rw [hu]
        simpa using hcond

/-- A user id appears in the `sent_to` log of the send loop only if it was
already in the accumulator's log or is the `user_id` of one of the loop's
targets. -/
theorem sent_to_of_foldl (crn : String) (api_key : Option String)
    (outcome : String → SmsOutcome) (ts : List NotifyTarget)
    (init : SendStats × UsersTable) (uid : String)
    (h : uid ∈ (ts.foldl (send_step crn api_key outcome) init).1.sent_to) :
    uid ∈ init.1.sent_to ∨ ∃ t ∈ ts, t.user_id = uid := by
  induction ts generalizing init with
  | nil => exact Or.inl h
  | cons t ts ih =>
    have hstep : (send_step crn api_key outcome init t).1.sent_to =
        init.1.sent_to ∨
        (send_step crn api_key outcome init t).1.sent_to =
          init.1.sent_to ++ [t.user_id] := by
      cases api_key with
      | none => left; rfl
      | some key =>
        cases houtcome : outcome t.user_id <;>
          simp [send_step, houtcome]
    rcases ih (send_step crn api_key outcome init t) h with hin | ⟨t', ht', heq⟩
    · rcases hstep with heq | heq
      · rw [heq] at hin
        exact Or.inl hin
      · rw [heq, List.mem_append] at hin
        rcases hin with hin | hin
        · exact Or.inl hin
        · right
          refine ⟨t, List.mem_cons_self t ts, ?_⟩
          exact (List.mem_singleton.mp hin).symm
    · exact Or.inr ⟨t', List.mem_cons_of_mem t ht', heq⟩

/-- C9: an SMS is accepted by the gateway for CRN `crn` and user `uid`
only if, at dispatch time, the stored user exists, its `phone_number` is
set (Python-truthy) and `crn` is in its tracked list `crns`; users in the
CRN's tracking set failing either condition are skipped. -/
theorem sms_only_to_eligible (crn : String) (crnRec : Option CrnRecord)
    (users : UsersTable) (api_key : Option String)
    (outcome : String → SmsOutcome) (uid : String)
    (h : uid ∈ (send_sms_notifications crn crnRec users api_key
        outcome).1.sent_to) :
    (users uid).any
      (fun u => phoneTruthy u.phone_number && u.crns.contains crn) = true := by
  rcases sent_to_of_foldl crn api_key outcome
      (get_users_tracking_crn crn crnRec users) (⟨0, 0, []⟩, users) uid h with
    hin | ⟨t, ht, heq⟩
  · cases hin
  · rw [← heq]
    exact get_users_tracking_crn_sound crn crnRec users t ht

/-- A stored CRN record for 12345, open with one seat, tracked by `u1`. -/
def crnRecEx : CrnRecord :=
  ⟨"12345", "Intro To Topology", "MATH 4431", "A", true, 1, 30, ["u1"],
    some "2025-01-01T00:00:00", none, 0⟩

/-- Witness for `sms_only_to_eligible`: `u1` appears in the send log of a
concrete fanout, and indeed tracks 12345 with a truthy phone number. -/
theorem sms_only_to_eligible_witness :
    "u1" ∈ (send_sms_notifications "12345" (some crnRecEx) usersTableEx
        (some "key") (fun _ => SmsOutcome.success)).1.sent_to ∧
    (usersTableEx "u1").any
      (fun u => phoneTruthy u.phone_number && u.crns.contains "12345")
      = true :=
  ⟨by decide,
    sms_only_to_eligible "12345" (some crnRecEx) usersTableEx (some "key")
      (fun _ => SmsOutcome.success) "u1" (by decide)⟩

/-! ## Claim C1 — per-CRN dedup on dispatch -/

/-- A user tracking CRN 12345 whose `notified_crns` already contains
12345 (already notified in the current open episode). -/
def u1NotifiedEx : User := ⟨"u1", some "+14045550101", ["12345"], ["12345"]⟩

/-- A users table holding only `u1NotifiedEx`. -/
def usersNotifiedTableEx : UsersTable :=
  fun uid => if uid = "u1" then some u1NotifiedEx else none

/-- C1 fails on the code: `get_users_tracking_crn` never consults
`notified_crns`, so during dispatch for an OPENED CRN a user whose
`notified_crns` already contains the CRN is not skipped — the gateway
accepts an SMS to `u1` even though `12345 ∈ u1.notified_crns`. -/
theorem dispatch_ignores_notified :
    u1NotifiedEx.notified_crns.contains "12345" = true ∧
    (get_users_tracking_crn "12345" (some crnRecEx) usersNotifiedTableEx).map
      (fun t => t.user_id) = ["u1"] ∧
    (send_sms_notifications "12345" (some crnRecEx) usersNotifiedTableEx
        (some "key") (fun _ => SmsOutcome.success)).1.sent_to = ["u1"] := by
  decide

/-! ## Claim C2 — CLOSED transition prunes the dedup set -/

/-- C2 fails on the code: a CLOSED transition only rewrites the CRN record
(`update_crn_data_with_metadata`); no user record is touched, so
`notified_crns` of a tracking user still contains the CRN afterwards.  The
concrete run: record 12345 is open and tracked by `u1` (whose
`notified_crns` holds 12345), the observation is closed — the users table
after the step is exactly the one before, entry `u1` included. -/
theorem closed_keeps_notified :
    crnRecEx.isOpen = true ∧ avClosedEx.is_open = false ∧
    (scraper_step "12345" (some avClosedEx) (statusOf crnRecEx.isOpen)
        (some crnRecEx) usersNotifiedTableEx (some "key")
        (fun _ => SmsOutcome.success)).2 = usersNotifiedTableEx ∧
    (usersNotifiedTableEx "u1").any
      (fun u => u.notified_crns.contains "12345") = true :=
  ⟨rfl, rfl, rfl, by decide⟩

end Reaper
